import Mathlib

/-!
Verification development for the Tech-Stack-Agent repository.

The repository has three Python source files:
  * `rules.py`     — `apply_pre_checks`, a fixed ordered list of pre-check rules;
  * `recommender.py` — prompt composition (`format_user_input_with_context`) and
    the LLM response normalizer inside `get_llm_chain_response`;
  * `App.py`       — the Streamlit turn handler that dispatches between the rule
    verdict and the model path.

This file embeds those functions shallowly (Python strings as `String`, dicts
with fixed keys as structures, the tagged returns as inductives) and proves
properties about them.
-/

/- ### Python string primitives used by the source -/

/-- Characters removed by Python `str.strip()` (ASCII whitespace). -/
def pySpace (c : Char) : Bool :=
  c = ' ' || c = '\t' || c = '\n' || c = '\r' || c = '\x0b' || c = '\x0c'

/-- Strip `pySpace` characters from both ends of a character list. -/
def stripChars (l : List Char) : List Char :=
  ((l.dropWhile pySpace).reverse.dropWhile pySpace).reverse

/-- Python `str.strip()`. -/
def pyStrip (s : String) : String := String.mk (stripChars s.toList)

/-- Index of the first occurrence of `c`, if any. -/
def findIdx? (c : Char) : List Char → Option Nat
  | [] => none
  | x :: xs => if x = c then some 0 else (findIdx? c xs).map Nat.succ

/-- Python `str.find(c)`: index of the first occurrence of `c`, or `-1`. -/
def pyFind (s : String) (c : Char) : Int :=
  match findIdx? c s.toList with
  | some i => (i : Int)
  | none => -1

/-- Python `str.rfind(c)`: index of the last occurrence of `c`, or `-1`. -/
def pyRfind (s : String) (c : Char) : Int :=
  match findIdx? c s.toList.reverse with
  | some i => ((s.toList.length - 1 - i : Nat) : Int)
  | none => -1

/-- Python slicing `s[a:b]` for the non-negative indices produced by
`find`/`rfind` (out-of-range ends clamp, as in Python). -/
def pySlice (s : String) (a b : Int) : String :=
  String.mk ((s.toList.drop a.toNat).take (b.toNat - a.toNat))

/-- Test whether the first list is a prefix of the second (Boolean). -/
def chPrefixB : List Char → List Char → Bool
  | [], _ => true
  | _ :: _, [] => false
  | a :: as, b :: bs => a = b && chPrefixB as bs

/-- Test whether `needle` occurs as a contiguous run in the second list. -/
def chContainsB (needle : List Char) : List Char → Bool
  | [] => chPrefixB needle []
  | c :: rest => chPrefixB needle (c :: rest) || chContainsB needle rest

/-- Python `needle in hay` (substring containment). -/
def strContains (hay needle : String) : Bool :=
  chContainsB needle.toList hay.toList

/-- Python `hay.startswith(needle)`. -/
def strStarts (hay needle : String) : Bool :=
  chPrefixB needle.toList hay.toList

/-- Python `str.lower()` for the ASCII inputs this program handles. -/
def pyLower (s : String) : String :=
  String.mk (s.toList.map Char.toLower)

/- ### Data model: `project_details` (the fixed-key dict built in App.py) -/

/-- The `project_details` mapping. `App.py` builds it with exactly these six
keys; `rules.py` reads each with `.get(key, "")` (respectively `.get(key, [])`),
so an absent/unset field is the empty default. -/
structure ProjectDetails where
  project_description : String := ""
  app_type : String := ""
  team_skills : List String := []
  budget : String := ""
  timeline : String := ""
  scalability_needs : String := ""
deriving DecidableEq, Repr

/-- One recommendation object, as returned inside the `"recommendations"`
lists; the `"source"` key is absent until `App.py` attaches it. -/
structure Recommendation where
  stack_name : String
  core_components : List String
  justification : String
  pros : List String
  cons : List String
  source : Option String := none
deriving DecidableEq, Repr

/-- The non-`None` returns of `apply_pre_checks`: either a direct
recommendation dict or an error dict, each carrying a `"source"`. -/
inductive RuleVerdict where
  | direct (recommendations : List Recommendation) (source : String)
  | error (error details source : String)
deriving DecidableEq, Repr

/- ### rules.py: apply_pre_checks -/

def static_site_keywords : List String :=
  ["static site", "brochure website", "portfolio", "landing page"]

def backend_skills : List String :=
  ["node.js", "python", "java", "go", "ruby", "php", "c#"]

def complex_keywords : List String :=
  ["enterprise system", "large scale platform", "many complex features"]

/-- Condition of rule 1 (`rules.py` lines 16–17), over the lowercased fields. -/
def rule1_cond (pd : ProjectDetails) : Bool :=
  let app_type := pyLower pd.app_type
  let description := pyLower pd.project_description
  let scalability := pyLower pd.scalability_needs
  let budget := pyLower pd.budget
  let timeline := pyLower pd.timeline
  (static_site_keywords.any fun keyword =>
      strContains app_type keyword || strContains description keyword) &&
    (scalability == "low" || scalability == "") &&
    budget == "low" &&
    strStarts timeline "very short"

/-- Condition of rule 2 (`rules.py` line 30). The generator expression
`any(skill in [...] for skill in team_skills if "none" not in team_skills)`
filters every element by the skill-independent test `"none" not in team_skills`,
which is rendered here as a `List.filter` with a constant predicate. -/
def rule2_cond (pd : ProjectDetails) : Bool :=
  let app_type := pyLower pd.app_type
  let description := pyLower pd.project_description
  let scalability := pyLower pd.scalability_needs
  let team_skills := pd.team_skills.map pyLower
  (scalability == "high" || scalability == "very high") &&
    (strContains description "no backend" ||
      strContains app_type "frontend only" ||
      !((team_skills.filter fun _ => !(team_skills.contains "none")).any
          fun skill => backend_skills.contains skill))

/-- Condition of rule 3 (`rules.py` lines 39–41). -/
def rule3_cond (pd : ProjectDetails) : Bool :=
  let description := pyLower pd.project_description
  let budget := pyLower pd.budget
  let timeline := pyLower pd.timeline
  let team_skills := pd.team_skills.map pyLower
  (complex_keywords.any fun keyword => strContains description keyword) &&
    (strStarts timeline "very short" || strStarts timeline "short") &&
    (budget == "low" || team_skills.contains "none" || team_skills.isEmpty)

/-- The fixed JAMstack recommendation returned by rule 1. -/
def jamstack_rec : Recommendation :=
  { stack_name := "JAMstack (e.g., Astro / Eleventy / Hugo / Next.js static export)"
    core_components := ["Static Site Generator", "CDN (Netlify, Vercel, GitHub Pages)"]
    justification := "For simple, static content with low budget and fast timeline, JAMstack offers optimal performance, security, and low cost."
    pros := ["Excellent performance", "High security", "Low hosting costs", "Good developer experience"]
    cons := ["Not suitable for dynamic server-side logic without workarounds (serverless functions)", "Build times can increase for very large sites"] }

def rule1_verdict : RuleVerdict :=
  .direct [jamstack_rec] "Rule-Based Pre-check"

def rule2_verdict : RuleVerdict :=
  .error "Contradictory Input"
    "High scalability typically requires a robust backend. Please clarify if a backend is needed or adjust scalability expectations."
    "Rule-Based Pre-check"

def rule3_verdict : RuleVerdict :=
  .error "Potentially Unrealistic Scope"
    "A complex project with a very short timeline and limited budget/expertise is challenging. Consider adjusting scope, timeline, or budget."
    "Rule-Based Pre-check"

/-- Embedding of `rules.py::apply_pre_checks`: the three rules tried in
order; `none` models the final `return None`. -/
def apply_pre_checks (project_details : ProjectDetails) : Option RuleVerdict :=
  if rule1_cond project_details then some rule1_verdict
  else if rule2_cond project_details then some rule2_verdict
  else if rule3_cond project_details then some rule3_verdict
  else none

/- ### recommender.py: prompt composition -/

/-- Python `key.replace(\x7b'_'\x7d, ...)` specialised to the single-character
replacement `replace('_', ' ')` performed by the composer. -/
def underscoresToSpaces (s : String) : String :=
  String.mk (s.toList.map fun c => if c = '_' then ' ' else c)

/-- Python `str.capitalize()`: first character uppercased, the rest
lowercased. -/
def pyCapitalize (s : String) : String :=
  match s.toList with
  | [] => ""
  | c :: rest => String.mk (c.toUpper :: rest.map Char.toLower)

/-- One line of the context summary built in
`recommender.py::format_user_input_with_context` (line 78):
`f"- \x7bkey.replace('_', ' ').capitalize()\x7d: \x7bvalue\x7d"`.
The second component of `kv` is the value as rendered by the f-string. -/
def summary_line (kv : String × String) : String :=
  "- " ++ pyCapitalize (underscoresToSpaces kv.1) ++ ": " ++ kv.2

/-- The per-field lines of the context summary, in the iteration order of
`project_details.items()`. -/
def context_summary_lines (items : List (String × String)) : List String :=
  items.map summary_line

/-- The context summary: `"\n".join(...)` over the per-field lines. -/
def context_summary (items : List (String × String)) : String :=
  String.intercalate "\n" (context_summary_lines items)

/-- The `SYSTEM_PROMPT_LANGCHAIN` template of `recommender.py` (lines 42–62)
after `.format(project_context_summary=...)` has substituted the summary. -/
def SYSTEM_PROMPT_LANGCHAIN (project_context_summary : String) : String :=
  "\nYou are an expert AI Tech Stack Advisor. Your task is to analyze the user\x27s project requirements\nand recommend up to three suitable technology stacks. Your recommendations must be thorough,\nwell-justified, and directly address the user\x27s inputs. Consider the conversation history for follow-up questions.\n\nCurrent Project Context (if provided by user, otherwise assume this is the first interaction):\n"
    ++ project_context_summary ++
    "\n\nInstructions for your response:\n1. If the user asks a follow-up question, prioritize answering that question in the context of previous recommendations OR if the new input significantly changes criteria, provide new recommendations.\n2. Structure your entire response as a single JSON array. Each element in the array\n   should be a JSON object representing one technology stack recommendation, containing the\n   following keys:\n   - \"stack_name\": A descriptive name for the tech stack.\n   - \"core_components\": A list of strings detailing the main technologies.\n   - \"justification\": A detailed explanation of why this stack is a good fit, referencing user inputs and conversation history.\n   - \"pros\": A list of key advantages.\n   - \"cons\": A list of key disadvantages or trade-offs.\n   - \"addressed_follow_up\": (Optional string) Briefly mention if/how this response addresses a follow-up from the user.\n3. If providing initial recommendations, be comprehensive. If answering a follow-up, be concise and targeted if possible.\n"

/-- Embedding of `recommender.py::format_user_input_with_context`
(lines 76–92). `items` is the `project_details.items()` sequence with values
already rendered to strings by the f-string; the conditional reproduces the
Python truthiness test `user_query if user_query else '...'`. -/
def format_user_input_with_context (items : List (String × String)) (user_query : String) : String :=
  let ctx := context_summary items
  "\n    System Instructions:\n    " ++ SYSTEM_PROMPT_LANGCHAIN ctx ++
    "\n\n    User\x27s Current Request/Context:\n    The overall project context is as follows:\n    " ++
    ctx ++
    "\n    \n    User\x27s specific question for this turn: \"" ++
    (if user_query == "" then "Provide initial tech stack recommendations based on the context above." else user_query) ++
    "\"\n\n    Please provide your recommendations or answer in the specified JSON format.\n    "

/- ### recommender.py: response normalization -/

/-- JSON values, as produced by `json.loads` (arrays become Python lists,
modelled by the `arr` constructor). -/
inductive Json where
  | null
  | bool (b : Bool)
  | num (n : Int)
  | str (s : String)
  | arr (elems : List Json)
  | obj (pairs : List (String × Json))

/-- The dicts returned from the normalization section of
`recommender.py::get_llm_chain_response`:
`recommendations` is the success dict of line 127, `notJsonArray` the
no-bracket-span dict of lines 130–135, and `exceptError` the three-key dicts
built in the two `except` handlers (lines 137–142). -/
inductive NormalizeResult where
  | recommendations (recs : List Json) (source : String)
  | notJsonArray (error details raw_text_fallback source : String)
  | exceptError (error details raw_text_fallback : String)

/-- Embedding of the response-normalization section of
`recommender.py::get_llm_chain_response` (lines 116–142), given the raw LLM
output. `json_loads` stands for the strict JSON parser `json.loads`;
`Except.error e` models a raised `json.JSONDecodeError` carrying message `e`.
Exception routing of the source: a `json.JSONDecodeError` lands in the first
handler (`LLM_JSON_PARSE_ERROR`); the `ValueError` raised at line 125 when the
parsed value is not a list is not a `json.JSONDecodeError`, so it falls to the
generic `except Exception` handler, producing `LLM_CHAIN_ERROR` with details
`"An unexpected error occurred: ValueError - LLM output was valid JSON, but
not a list."` and `raw_text_fallback` equal to the untrimmed raw output. -/
def normalize_llm_output (json_loads : String → Except String Json)
    (raw_llm_output : String) : NormalizeResult :=
  let cleaned_output := pyStrip raw_llm_output
  let json_start := pyFind cleaned_output '['
  let json_end := pyRfind cleaned_output ']' + 1
  if json_start ≠ -1 ∧ json_end ≠ 0 ∧ json_end > json_start then
    let json_str := pySlice cleaned_output json_start json_end
    match json_loads json_str with
    | .ok (.arr parsed_recommendations) =>
        .recommendations parsed_recommendations "LLM via LangChain"
    | .ok _ =>
        .exceptError "LLM_CHAIN_ERROR"
          "An unexpected error occurred: ValueError - LLM output was valid JSON, but not a list."
          raw_llm_output
    | .error e =>
        .exceptError "LLM_JSON_PARSE_ERROR"
          ("Failed to parse LLM output as JSON. Error: " ++ e ++ ". Raw output was: \n" ++ raw_llm_output)
          raw_llm_output
  else
    .notJsonArray "LLM_RESPONSE_NOT_JSON_ARRAY"
      "LLM did not return a parseable JSON array. Displaying raw text."
      cleaned_output "LLM via LangChain"

/- ### App.py: the chat turn handler -/

/-- The assistant-side outcomes of one chat turn in `App.py` (lines 126–168):
a rule error message, rule recommendations with source attached, or whatever
the model path produced (the display sub-branches of lines 150–163 all consume
the package returned by `get_llm_chain_response`). -/
inductive TurnResult where
  | ruleCheckFailed (error details : String)
  | ruleRecommendations (recs : List Recommendation)
  | llmHandled (pkg : NormalizeResult)

/-- The source-attachment loop of `App.py` lines 139–140:
`rec_item["source"] = rule_result.get("source", "Rule-Based System")`. -/
def attach_source (recs : List Recommendation) (src : String) : List Recommendation :=
  recs.map fun r => { r with source := some src }

/-- What the rule branch of the turn handler displays for a given verdict. -/
def rule_verdict_display : RuleVerdict → TurnResult
  | .error e d _ => .ruleCheckFailed e d
  | .direct recs src => .ruleRecommendations (attach_source recs src)

/-- Embedding of the dispatch in the chat turn handler of `App.py`
(lines 126–168), for a session whose model client and memory are initialized.
`invoke_llm` stands for the call to `get_llm_chain_response`; the second
component of the result counts how many times it was invoked during the
turn. -/
def handle_turn (pd : ProjectDetails) (invoke_llm : Unit → NormalizeResult) :
    TurnResult × Nat :=
  match apply_pre_checks pd with
  | some (.error e d _) => (.ruleCheckFailed e d, 0)
  | some (.direct recs src) => (.ruleRecommendations (attach_source recs src), 0)
  | none => (.llmHandled (invoke_llm ()), 1)

/- ### The Memory Window -/

/-- One conversation turn: the user input paired with the produced output. -/
structure ConversationTurn where
  user_input : String
  output : TurnResult

/-- The window size `k=5` configured in `recommender.py::get_llm_and_memory`
(line 34). -/
def window_k : Nat := 5

/-- Modelled from the spec: the eviction behaviour of the Memory Window is
implemented by the LangChain class `ConversationBufferWindowMemory` (only its
construction with `k=5` appears in `recommender.py`, lines 29–39; the class
itself is not part of this repository). The spec describes the window as an
"ordered sequence of the last K ConversationTurns (K=5), FIFO eviction of the
oldest turn when exceeding K", chronological oldest-first. Appending a turn
keeps the most recent `window_k` turns. -/
def append_turn (window : List ConversationTurn) (t : ConversationTurn) :
    List ConversationTurn :=
  let appended := window ++ [t]
  appended.drop (appended.length - window_k)

/- ### Definitions written from the claim text (refinement references) -/

/-- Condition of rule 2 as the specification words it: scalability High or
Very High (case-insensitively), and the description contains "no backend", or
the app_type contains "frontend only", or the lowercased team_skills list
contains no element of the backend-capable skill set. -/
def rule2_spec_cond (pd : ProjectDetails) : Bool :=
  let scalability := pyLower pd.scalability_needs
  let team_skills := pd.team_skills.map pyLower
  (scalability == "high" || scalability == "very high") &&
    (strContains (pyLower pd.project_description) "no backend" ||
      strContains (pyLower pd.app_type) "frontend only" ||
      !(team_skills.any fun skill => backend_skills.contains skill))

/-- Condition of rule 2 as amended: like `rule2_spec_cond`, but the third
disjunct is also satisfied when the lowercased team_skills list contains the
entry "none" (which empties the filtered generator in the source). -/
def rule2_amended_cond (pd : ProjectDetails) : Bool :=
  let scalability := pyLower pd.scalability_needs
  let team_skills := pd.team_skills.map pyLower
  (scalability == "high" || scalability == "very high") &&
    (strContains (pyLower pd.project_description) "no backend" ||
      strContains (pyLower pd.app_type) "frontend only" ||
      team_skills.contains "none" ||
      !(team_skills.any fun skill => backend_skills.contains skill))

/- ### Concrete inputs used by witnesses and counterexamples -/

/-- Project details with high scalability and team skills listing both a
backend-capable skill and "None". -/
def pd_contradiction : ProjectDetails :=
  { project_description := ""
    app_type := "Web Application"
    team_skills := ["Python", "None"]
    budget := "Medium"
    timeline := "Medium (3-6 months)"
    scalability_needs := "High" }

/-- Project details matching rule 1 and rule 3 simultaneously. -/
def pd_rule1_and_rule3 : ProjectDetails :=
  { project_description := "portfolio for an enterprise system"
    app_type := "Web Application"
    team_skills := []
    budget := "Low"
    timeline := "Very Short (Under 1 month)"
    scalability_needs := "Low" }

/-- Project details matching rule 2 and rule 3 simultaneously. -/
def pd_rule2_and_rule3 : ProjectDetails :=
  { project_description := "an enterprise system with no backend"
    app_type := "Web Application"
    team_skills := []
    budget := "Low"
    timeline := "Short (1-3 months)"
    scalability_needs := "High" }

/-- Project details matching the static-site rule. -/
def pd_static : ProjectDetails :=
  { project_description := "A personal portfolio"
    app_type := "Other"
    team_skills := ["JavaScript"]
    budget := "Low"
    timeline := "Very Short (Under 1 month)"
    scalability_needs := "Low" }

/-- Parser stand-in returning a non-array JSON value, exercising the branch
where `json.loads` succeeds but the value is not a list. -/
def json_loads_nonlist : String → Except String Json :=
  fun _ => Except.ok (Json.num 5)

/-- Parser stand-in that always raises, with a message in the shape of a
`json.JSONDecodeError`. -/
def json_loads_fail : String → Except String Json :=
  fun _ => Except.error "Expecting value: line 1 column 2 (char 1)"

/-- A model-path stand-in for `get_llm_chain_response`. -/
def llm_stub : Unit → NormalizeResult :=
  fun _ =>
    .notJsonArray "LLM_RESPONSE_NOT_JSON_ARRAY"
      "LLM did not return a parseable JSON array. Displaying raw text."
      "" "LLM via LangChain"

/-- A concrete conversation turn. -/
def mkTurn (s : String) : ConversationTurn :=
  { user_input := s
    output := TurnResult.llmHandled (NormalizeResult.recommendations [] "LLM via LangChain") }

/-- Constructor tag of a `NormalizeResult`, used to separate the variants. -/
def NormalizeResult.kindTag : NormalizeResult → Nat
  | .recommendations _ _ => 0
  | .notJsonArray _ _ _ _ => 1
  | .exceptError _ _ _ => 2

/- ### Helper lemmas -/

theorem str_toList_append (a b : String) : (a ++ b).toList = a.toList ++ b.toList := rfl

theorem str_append_assoc (a b c : String) : (a ++ b) ++ c = a ++ (b ++ c) := by
  cases a with
  | mk d1 =>
      cases b with
      | mk d2 =>
          cases c with
          | mk d3 => exact congrArg String.mk (List.append_assoc d1 d2 d3)

theorem chPrefixB_append (l m : List Char) : chPrefixB l (l ++ m) = true := by
  induction l with
  | nil => rfl
  | cons a as ih => simp [chPrefixB, ih]

theorem chContainsB_of_prefix (n hay : List Char) (h : chPrefixB n hay = true) :
    chContainsB n hay = true := by
  cases hay with
  | nil =>
      cases n with
      | nil => rfl
      | cons a as => simp [chPrefixB] at h
  | cons c rest => simp [chContainsB, h]

theorem chContainsB_mid (a n b : List Char) : chContainsB n (a ++ (n ++ b)) = true := by
  induction a with
  | nil => simpa using chContainsB_of_prefix n (n ++ b) (chPrefixB_append n b)
  | cons c cs ih => simp [chContainsB, ih]

theorem strContains_mid (a n b : String) : strContains (a ++ (n ++ b)) n = true := by
  unfold strContains
  rw [str_toList_append, str_toList_append]
  exact chContainsB_mid a.toList n.toList b.toList

theorem mem_of_mem_dropWhile {p : Char → Bool} {c : Char} :
    ∀ {l : List Char}, c ∈ l.dropWhile p → c ∈ l := by
  intro l
  induction l with
  | nil => simp [List.dropWhile]
  | cons x xs ih =>
      simp only [List.dropWhile]
      intro h
      cases hx : p x with
      | true => rw [hx] at h; exact List.mem_cons_of_mem x (ih h)
      | false => rw [hx] at h; exact h

theorem mem_of_mem_stripChars {c : Char} {l : List Char} (h : c ∈ stripChars l) : c ∈ l := by
  unfold stripChars at h
  rw [List.mem_reverse] at h
  have h1 := mem_of_mem_dropWhile h
  rw [List.mem_reverse] at h1
  exact mem_of_mem_dropWhile h1

theorem findIdx?_eq_none_of_not_mem {c : Char} :
    ∀ {l : List Char}, c ∉ l → findIdx? c l = none := by
  intro l
  induction l with
  | nil => intro _; rfl
  | cons x xs ih =>
      intro h
      have hx : ¬(x = c) := fun he => h (he ▸ List.mem_cons_self x xs)
      simp only [findIdx?, if_neg hx]
      rw [ih (fun hm => h (List.mem_cons_of_mem x hm))]
      rfl

theorem pyFind_pyStrip_eq_neg_one {s : String} {c : Char} (h : c ∉ s.toList) :
    pyFind (pyStrip s) c = -1 := by
  have hm : c ∉ (pyStrip s).toList := fun hmem => h (mem_of_mem_stripChars hmem)
  unfold pyFind
  rw [findIdx?_eq_none_of_not_mem hm]

theorem filter_const {α : Type} (l : List α) (b : Bool) :
    (l.filter fun _ => b) = if b then l else [] := by
  induction l with
  | nil => cases b <;> rfl
  | cons x xs ih => cases b <;> simp_all [List.filter]

theorem rule2_cond_eq_amended (pd : ProjectDetails) :
    rule2_cond pd = rule2_amended_cond pd := by
  simp only [rule2_cond, rule2_amended_cond]
  rw [filter_const]
  cases h : (pd.team_skills.map pyLower).contains "none" with
  | false =>
      rw [Bool.not_false, if_pos rfl]
      simp
  | true =>
      rw [Bool.not_true, if_neg Bool.false_ne_true]
      simp only [List.any_nil, Bool.not_false, Bool.or_true, Bool.true_or, Bool.and_true]

/- ### Claims about rules.py and the orchestrator -/

/-- Claim C6: for every ProjectDetails where app_type or project_description
contains (case-insensitively) one of the static-site keywords, scalability is
Low or unset, budget equals Low, and timeline starts with "Very Short",
`apply_pre_checks` returns the single fixed JAMstack recommendation verdict
tagged with source "Rule-Based Pre-check". -/
theorem C6_static_site (pd : ProjectDetails)
    (hkw : (static_site_keywords.any fun keyword =>
        strContains (pyLower pd.app_type) keyword ||
          strContains (pyLower pd.project_description) keyword) = true)
    (hsc : pyLower pd.scalability_needs = "low" ∨ pyLower pd.scalability_needs = "")
    (hbudget : pyLower pd.budget = "low")
    (htime : strStarts (pyLower pd.timeline) "very short" = true) :
    apply_pre_checks pd = some rule1_verdict := by
  have h1 : rule1_cond pd = true := by
    simp only [rule1_cond]
    rcases hsc with h | h <;> simp [hkw, hbudget, htime, h]
  simp [apply_pre_checks, h1]

/-- Claim C6 witness: the static-site rule fires on a concrete input. -/
theorem C6_witness :
    ((static_site_keywords.any fun keyword =>
        strContains (pyLower pd_static.app_type) keyword ||
          strContains (pyLower pd_static.project_description) keyword) = true) ∧
    pyLower pd_static.budget = "low" ∧
    apply_pre_checks pd_static = some rule1_verdict :=
  ⟨by decide, by decide,
    C6_static_site pd_static (by decide) (Or.inl (by decide)) (by decide) (by decide)⟩

/-- Claim C7: the rules are evaluated in the fixed order 1, 2, 3; the first
matching rule determines the verdict and later matching rules are ignored. -/
theorem C7_first_match (pd : ProjectDetails) :
    (rule1_cond pd = true → apply_pre_checks pd = some rule1_verdict) ∧
    (rule1_cond pd = false → rule2_cond pd = true →
      apply_pre_checks pd = some rule2_verdict) ∧
    (rule1_cond pd = false → rule2_cond pd = false → rule3_cond pd = true →
      apply_pre_checks pd = some rule3_verdict) := by
  refine ⟨fun h1 => ?_, fun h1 h2 => ?_, fun h1 h2 h3 => ?_⟩ <;>
    simp [apply_pre_checks, *]

/-- Claim C7 witness: on inputs matching rule 1 and rule 3 simultaneously the
verdict of rule 1 is returned, and on inputs matching rule 2 and rule 3
simultaneously the verdict of rule 2 is returned. -/
theorem C7_witness :
    (rule1_cond pd_rule1_and_rule3 = true ∧ rule3_cond pd_rule1_and_rule3 = true ∧
      apply_pre_checks pd_rule1_and_rule3 = some rule1_verdict) ∧
    (rule2_cond pd_rule2_and_rule3 = true ∧ rule3_cond pd_rule2_and_rule3 = true ∧
      apply_pre_checks pd_rule2_and_rule3 = some rule2_verdict) :=
  ⟨⟨by decide, by decide, (C7_first_match pd_rule1_and_rule3).1 (by decide)⟩,
    ⟨by decide, by decide,
      (C7_first_match pd_rule2_and_rule3).2.1 (by decide) (by decide)⟩⟩

/-- Claim C2 counterexample: a ProjectDetails that does not match the
static-site rule, for which the claimed condition (description has
"no backend", or app_type has "frontend only", or no backend-capable skill
in the lowercased team_skills) is false, yet `apply_pre_checks` returns the
Error("Contradictory Input") verdict, because the listed skill "None" empties
the filtered generator of the backend-skill check. -/
theorem C2_counterexample :
    rule1_cond pd_contradiction = false ∧
    rule2_spec_cond pd_contradiction = false ∧
    apply_pre_checks pd_contradiction = some rule2_verdict :=
  ⟨by decide, by decide, by decide⟩

/-- Claim C2 as amended: for every ProjectDetails that does not match the
static-site rule, `apply_pre_checks` returns Error("Contradictory Input", the
fixed text) if and only if scalability is High or Very High
(case-insensitively) and at least one of: the description contains
"no backend", the app_type contains "frontend only", the lowercased
team_skills list contains the entry "none", or the lowercased team_skills
list contains no element of the backend-capable set. -/
theorem C2_rule2_iff (pd : ProjectDetails) (h1 : rule1_cond pd = false) :
    apply_pre_checks pd = some rule2_verdict ↔ rule2_amended_cond pd = true := by
  rw [← rule2_cond_eq_amended]
  cases h2 : rule2_cond pd with
  | true => simp [apply_pre_checks, h1, h2]
  | false =>
      simp only [apply_pre_checks, h1, h2]
      cases h3 : rule3_cond pd <;>
        simp [h3, rule2_verdict, rule3_verdict]

/-- Claim C2 witness: the amended biconditional applied at a concrete input
on which rule 2 fires. -/
theorem C2_rule2_iff_witness :
    rule1_cond pd_contradiction = false ∧
    rule2_amended_cond pd_contradiction = true ∧
    apply_pre_checks pd_contradiction = some rule2_verdict :=
  ⟨by decide, by decide, (C2_rule2_iff pd_contradiction (by decide)).mpr (by decide)⟩

/-- Claim C10: for every ProjectDetails with scalability High or Very High
(case-insensitively) whose lowercased team_skills list contains the entry
"none", `apply_pre_checks` returns the Error("Contradictory Input") verdict,
regardless of which other skills are listed: the membership of "none" empties
the filtered iteration of the backend-skill check. -/
theorem C10_none_entry (pd : ProjectDetails)
    (hsc : pyLower pd.scalability_needs = "high" ∨ pyLower pd.scalability_needs = "very high")
    (hnone : (pd.team_skills.map pyLower).contains "none" = true) :
    apply_pre_checks pd = some rule2_verdict := by
  have h1 : rule1_cond pd = false := by
    simp only [rule1_cond]
    rcases hsc with h | h <;> simp [h]
  have h2 : rule2_cond pd = true := by
    simp only [rule2_cond]
    rw [filter_const, hnone, Bool.not_true, if_neg Bool.false_ne_true]
    rcases hsc with h | h <;> simp [h]
  simp [apply_pre_checks, h1, h2]

/-- Claim C10 witness: with scalability "High" and team skills listing both
"Python" (backend-capable) and "None", the contradiction error is returned. -/
theorem C10_witness :
    (pd_contradiction.team_skills.map pyLower).contains "python" = true ∧
    (pd_contradiction.team_skills.map pyLower).contains "none" = true ∧
    apply_pre_checks pd_contradiction = some rule2_verdict :=
  ⟨by decide, by decide, C10_none_entry pd_contradiction (Or.inl (by decide)) (by decide)⟩

/-- Claim C3: on every turn where `apply_pre_checks` returns a non-None
verdict, the model path is not executed (the invocation count of the
`get_llm_chain_response` stand-in is 0) and the rule verdict determines the
result of the turn. -/
theorem C3_rule_short_circuits (pd : ProjectDetails) (v : RuleVerdict)
    (invoke_llm : Unit → NormalizeResult) (h : apply_pre_checks pd = some v) :
    (handle_turn pd invoke_llm).2 = 0 ∧
      (handle_turn pd invoke_llm).1 = rule_verdict_display v := by
  cases v <;> simp [handle_turn, h, rule_verdict_display]

/-- Claim C3 witness: on a concrete input where rule 2 fires, the turn
handler performs zero model invocations and displays the rule verdict. -/
theorem C3_witness :
    apply_pre_checks pd_contradiction = some rule2_verdict ∧
    (handle_turn pd_contradiction llm_stub).2 = 0 ∧
    (handle_turn pd_contradiction llm_stub).1 = rule_verdict_display rule2_verdict :=
  ⟨by decide, C3_rule_short_circuits pd_contradiction rule2_verdict llm_stub (by decide)⟩

/- ### Claims about the Response Normalizer and the Prompt Composer -/

/-- Claim C5: for every rawText containing no opening bracket at all, the
normalizer returns the fallback dict whose raw_text_fallback equals the
whitespace-trimmed input, and no parse-error path is taken. -/
theorem C5_no_bracket (json_loads : String → Except String Json) (rawText : String)
    (h : '[' ∉ rawText.toList) :
    normalize_llm_output json_loads rawText =
      NormalizeResult.notJsonArray "LLM_RESPONSE_NOT_JSON_ARRAY"
        "LLM did not return a parseable JSON array. Displaying raw text."
        (pyStrip rawText) "LLM via LangChain" := by
  have hf : pyFind (pyStrip rawText) '[' = -1 := pyFind_pyStrip_eq_neg_one h
  simp only [normalize_llm_output]
  exact if_neg (fun hcond => hcond.1 hf)

/-- Claim C5 witness: a concrete bracket-free raw text takes the fallback
path with the trimmed text as raw_text_fallback. -/
theorem C5_witness :
    ('[' ∉ ("  no json here  " : String).toList) ∧
    pyStrip "  no json here  " = "no json here" ∧
    normalize_llm_output json_loads_fail "  no json here  " =
      NormalizeResult.notJsonArray "LLM_RESPONSE_NOT_JSON_ARRAY"
        "LLM did not return a parseable JSON array. Displaying raw text."
        (pyStrip "  no json here  ") "LLM via LangChain" :=
  ⟨by decide, by decide, C5_no_bracket json_loads_fail "  no json here  " (by decide)⟩

/-- Claim C4: when a bracket span is found but the sliced substring fails
strict JSON parsing, the normalizer returns the LLM_JSON_PARSE_ERROR dict
whose details include the parser error message and whose raw_text_fallback
equals the original, untrimmed rawText. -/
theorem C4_parse_error (json_loads : String → Except String Json) (rawText e : String)
    (h1 : pyFind (pyStrip rawText) '[' ≠ -1)
    (h2 : pyRfind (pyStrip rawText) ']' + 1 ≠ 0)
    (h3 : pyRfind (pyStrip rawText) ']' + 1 > pyFind (pyStrip rawText) '[')
    (hparse : json_loads (pySlice (pyStrip rawText) (pyFind (pyStrip rawText) '[')
        (pyRfind (pyStrip rawText) ']' + 1)) = Except.error e) :
    normalize_llm_output json_loads rawText =
      NormalizeResult.exceptError "LLM_JSON_PARSE_ERROR"
        ("Failed to parse LLM output as JSON. Error: " ++ e ++ ". Raw output was: \n" ++ rawText)
        rawText ∧
    strContains
      ("Failed to parse LLM output as JSON. Error: " ++ e ++ ". Raw output was: \n" ++ rawText)
      e = true := by
  constructor
  · simp only [normalize_llm_output]
    rw [if_pos ⟨h1, h2, h3⟩, hparse]
  · rw [str_append_assoc, str_append_assoc]
    exact strContains_mid _ _ _

/-- Claim C4 witness: a concrete raw text whose bracket slice fails to
parse produces the LLM_JSON_PARSE_ERROR dict. -/
theorem C4_witness :
    pyFind (pyStrip "[oops]") '[' ≠ -1 ∧
    pyRfind (pyStrip "[oops]") ']' + 1 > pyFind (pyStrip "[oops]") '[' ∧
    normalize_llm_output json_loads_fail "[oops]" =
      NormalizeResult.exceptError "LLM_JSON_PARSE_ERROR"
        ("Failed to parse LLM output as JSON. Error: " ++
          "Expecting value: line 1 column 2 (char 1)" ++ ". Raw output was: \n" ++ "[oops]")
        "[oops]" ∧
    strContains
      ("Failed to parse LLM output as JSON. Error: " ++
        "Expecting value: line 1 column 2 (char 1)" ++ ". Raw output was: \n" ++ "[oops]")
      "Expecting value: line 1 column 2 (char 1)" = true := by
  have h := C4_parse_error json_loads_fail "[oops]" "Expecting value: line 1 column 2 (char 1)"
    (by decide) (by decide) (by decide) rfl
  exact ⟨by decide, by decide, h.1, h.2⟩

/-- Claim C1 counterexample: when the bracket slice parses as valid JSON
that is not an array, the normalizer does NOT fall through to the
no-valid-bracket fallback; the raised ValueError is caught by the generic
handler and an LLM_CHAIN_ERROR dict is returned with the untrimmed raw text. -/
theorem C1_counterexample :
    normalize_llm_output json_loads_nonlist "[5]" =
      NormalizeResult.exceptError "LLM_CHAIN_ERROR"
        "An unexpected error occurred: ValueError - LLM output was valid JSON, but not a list."
        "[5]" ∧
    normalize_llm_output json_loads_nonlist "[5]" ≠
      NormalizeResult.notJsonArray "LLM_RESPONSE_NOT_JSON_ARRAY"
        "LLM did not return a parseable JSON array. Displaying raw text."
        "[5]" "LLM via LangChain" :=
  ⟨rfl, fun hcontra => absurd (congrArg NormalizeResult.kindTag hcontra) (by decide)⟩

/-- Claim C1 as amended: when a bracket span is found and the sliced
substring parses as valid JSON that is not an array, the normalizer returns
the ModelError dict LLM_CHAIN_ERROR (the ValueError caught by the generic
handler), with the fixed not-a-list details and raw_text_fallback equal to
the original rawText — not the UnparsedFallback dict. -/
theorem C1_chain_error (json_loads : String → Except String Json) (rawText : String) (v : Json)
    (h1 : pyFind (pyStrip rawText) '[' ≠ -1)
    (h2 : pyRfind (pyStrip rawText) ']' + 1 ≠ 0)
    (h3 : pyRfind (pyStrip rawText) ']' + 1 > pyFind (pyStrip rawText) '[')
    (hparse : json_loads (pySlice (pyStrip rawText) (pyFind (pyStrip rawText) '[')
        (pyRfind (pyStrip rawText) ']' + 1)) = Except.ok v)
    (hnotarr : ∀ elems, v ≠ Json.arr elems) :
    normalize_llm_output json_loads rawText =
      NormalizeResult.exceptError "LLM_CHAIN_ERROR"
        "An unexpected error occurred: ValueError - LLM output was valid JSON, but not a list."
        rawText := by
  simp only [normalize_llm_output]
  rw [if_pos ⟨h1, h2, h3⟩, hparse]
  cases v with
  | arr elems => exact absurd rfl (hnotarr elems)
  | null => rfl
  | bool b => rfl
  | num n => rfl
  | str s => rfl
  | obj pairs => rfl

/-- Claim C1 witness: the amended behaviour at a concrete input whose slice
parses to a non-array JSON value. -/
theorem C1_chain_error_witness :
    pyFind (pyStrip "[5]") '[' ≠ -1 ∧
    normalize_llm_output json_loads_nonlist "[5]" =
      NormalizeResult.exceptError "LLM_CHAIN_ERROR"
        "An unexpected error occurred: ValueError - LLM output was valid JSON, but not a list."
        "[5]" :=
  ⟨by decide,
    C1_chain_error json_loads_nonlist "[5]" (Json.num 5) (by decide) (by decide) (by decide)
      rfl (fun elems h => Json.noConfusion h)⟩

/-- Claim C8 counterexample: the context summary line for the field
team_skills is "- Team skills: ..." — the field name is capitalized with
`str.capitalize` (only the first character uppercased), not title-cased, and
the line carries a leading dash. -/
theorem C8_counterexample :
    context_summary [("team_skills", "x")] = "- Team skills: x" ∧
    ("- Team skills: x" : String) ≠ "Team Skills: x" ∧
    strContains (context_summary [("team_skills", "x")]) "Team Skills" = false :=
  ⟨rfl, by decide, by decide⟩

/-- Claim C8 as amended: the context summary contains exactly one line per
field, each of the form "- Field name: value", where the field name has
underscores replaced by spaces and is capitalized Python-style: only the
first character uppercased, the rest lowercased. -/
theorem C8_lines (items : List (String × String)) (i : Nat) (key value : String)
    (h : items[i]? = some (key, value)) :
    (context_summary_lines items).length = items.length ∧
    (context_summary_lines items)[i]? =
      some ("- " ++ pyCapitalize (underscoresToSpaces key) ++ ": " ++ value) := by
  constructor
  · simp [context_summary_lines]
  · simp [context_summary_lines, List.getElem?_map, h, summary_line]

/-- Claim C8 witness: the line rendered for the app_type field. -/
theorem C8_lines_witness :
    (([("app_type", "Web Application")] : List (String × String))[0]? =
      some ("app_type", "Web Application")) ∧
    (context_summary_lines [("app_type", "Web Application")])[0]? =
      some "- App type: Web Application" :=
  ⟨rfl,
    (C8_lines [("app_type", "Web Application")] 0 "app_type" "Web Application" rfl).2.trans
      (by decide)⟩

/- ### Claim about the Memory Window -/

/-- Claim C9: the memory window holds at most K=5 turns at all times; when a
turn is appended to a full window, exactly the oldest turn is evicted and
the 5 most recent turns remain, in chronological oldest-first order. -/
theorem C9_memory_window (window : List ConversationTurn) (t : ConversationTurn) :
    (append_turn window t).length ≤ window_k ∧
      (window.length = window_k → append_turn window t = window.drop 1 ++ [t]) := by
  constructor
  · simp only [append_turn, window_k, List.length_drop, List.length_append,
      List.length_cons, List.length_nil]
    omega
  · intro h
    cases window with
    | nil => simp [window_k] at h
    | cons x rest =>
        have hl : rest.length = 4 := by
          simp [window_k] at h
          omega
        simp [append_turn, window_k, hl]

/-- Claim C9 witness: after a sixth turn is appended to a full window of
five, the oldest turn is evicted and the five most recent remain in order. -/
theorem C9_witness :
    ([mkTurn "t1", mkTurn "t2", mkTurn "t3", mkTurn "t4", mkTurn "t5"] :
      List ConversationTurn).length = window_k ∧
    append_turn [mkTurn "t1", mkTurn "t2", mkTurn "t3", mkTurn "t4", mkTurn "t5"]
        (mkTurn "t6") =
      [mkTurn "t2", mkTurn "t3", mkTurn "t4", mkTurn "t5", mkTurn "t6"] := by
  refine ⟨rfl, ?_⟩
  have h := (C9_memory_window
    [mkTurn "t1", mkTurn "t2", mkTurn "t3", mkTurn "t4", mkTurn "t5"] (mkTurn "t6")).2 rfl
  exact h.trans rfl
